import Mathlib

/-!
Verification of the transactional order-processing core of the
`m7.ae4.transacciones` repository (Node.js + PostgreSQL).

The development shallowly embeds the relational store as an explicit
state (`DB`), the DAO layer (`clienteDAO.js`, `inventarioDAO.js`,
`pedidoDAO.js`) as pure state-passing functions returning
`Except String`, and the transaction wrapper
(`utils/transactionManager.js`, `executeTransaction`) as a function
that commits the unit of work's state on success and restores the
pre-transaction state on failure (ROLLBACK), while recording the
effect trace (connection acquire/release, BEGIN/COMMIT/ROLLBACK, row
writes) as a list of events.

Errors are modelled as their message strings, built exactly as the
source builds them (including the DAO catch-block prefixes).
Numeric columns (`DECIMAL(10,2)`, `INTEGER`) are modelled as `Int`.
Timestamps (`CURRENT_TIMESTAMP`) are modelled by a logical clock
`DB.now : Nat`.
-/

/-- A row of the `clientes` table (schema in `database/init.js`). -/
structure Cliente where
  id : Nat
  nombre : String
  email : String
  telefono : Option String
  direccion : Option String
deriving DecidableEq

/-- A row of the `inventario` table (schema in `database/init.js`). -/
structure Producto where
  id : Nat
  producto : String
  descripcion : String
  precio : Int
  stock : Int
  stock_minimo : Int
  fecha_actualizacion : Nat
deriving DecidableEq

/-- A row of the `pedidos` table (schema in `database/init.js`).
The schema carries `CHECK (cantidad > 0)` and `estado` defaults to
`pendiente`. -/
structure Pedido where
  id : Nat
  cliente_id : Nat
  producto_id : Nat
  cantidad : Int
  precio_unitario : Int
  total : Int
  estado : String
  fecha_pedido : Nat
deriving DecidableEq

/-- The relational store: the three tables, the two SERIAL sequences,
and a logical clock standing for `CURRENT_TIMESTAMP`. -/
structure DB where
  clientes : List Cliente
  inventario : List Producto
  pedidos : List Pedido
  nextClienteId : Nat
  nextPedidoId : Nat
  now : Nat
deriving DecidableEq

/-- Observable effects of a unit of work: connection and
transaction-control statements plus row writes, in issue order. -/
inductive Ev where
  | acquire
  | txBegin
  | txCommit
  | txRollback
  | rollbackFailed
  | release
  | insertClient (id : Nat)
  | insertOrder (id : Nat)
  | stockWrite (id : Nat)
  | deleteOrder (id : Nat)
  | simFault
deriving DecidableEq

/-! ## inventarioDAO.js -/

/-- `getProductById` (`SELECT * FROM inventario WHERE id = $1`). -/
def getProductById (productId : Nat) (db : DB) : Option Producto :=
  db.inventario.find? (fun p => p.id == productId)

/-- `getProductByName` (`SELECT * FROM inventario WHERE producto = $1`). -/
def getProductByName (productName : String) (db : DB) : Option Producto :=
  db.inventario.find? (fun p => p.producto == productName)

/-- `checkStock`: reads the row's stock and compares with the required
quantity; the product-not-found throw is re-wrapped by the function's
own catch block. -/
def checkStock (productId : Nat) (quantity : Int) (db : DB) : Except String Bool :=
  match db.inventario.find? (fun p => p.id == productId) with
  | none => .error ("Error verificando stock: Producto con ID " ++ toString productId
      ++ " no encontrado")
  | some p => .ok (decide (quantity ≤ p.stock))

/-- The `Stock insuficiente` message thrown inside `updateStock`. -/
def stockInsuficienteMsg (stock quantity : Int) : String :=
  "Stock insuficiente. Stock actual: " ++ toString stock
    ++ ", cantidad solicitada: " ++ toString quantity

/-- `updateStock`: re-reads the row, computes `newStock = stock - quantity`,
throws if `newStock < 0`, otherwise updates stock and
`fecha_actualizacion` and returns the updated row.  Both throws pass
through the function's catch block, which prefixes
"Error actualizando stock: ". -/
def updateStock (productId : Nat) (quantity : Int) (db : DB) :
    Except String (Producto × DB × List Ev) :=
  match db.inventario.find? (fun p => p.id == productId) with
  | none => .error ("Error actualizando stock: Producto con ID " ++ toString productId
      ++ " no encontrado")
  | some product =>
    let newStock := product.stock - quantity
    if newStock < 0 then
      .error ("Error actualizando stock: " ++ stockInsuficienteMsg product.stock quantity)
    else
      let updated := { product with stock := newStock, fecha_actualizacion := db.now }
      .ok (updated,
        { db with inventario := db.inventario.map (fun p =>
            if p.id == productId then { p with stock := newStock, fecha_actualizacion := db.now }
            else p) },
        [Ev.stockWrite productId])

/-- `restoreStock`: unconditional additive `UPDATE ... SET stock = stock + $1`;
zero affected rows is reported as product-not-found. -/
def restoreStock (productId : Nat) (quantity : Int) (db : DB) :
    Except String (Producto × DB × List Ev) :=
  match db.inventario.find? (fun p => p.id == productId) with
  | none => .error ("Error restaurando stock: Producto con ID " ++ toString productId
      ++ " no encontrado")
  | some product =>
    let updated :=
      { product with stock := product.stock + quantity, fecha_actualizacion := db.now }
    .ok (updated,
      { db with inventario := db.inventario.map (fun p =>
          if p.id == productId then
            { p with stock := p.stock + quantity, fecha_actualizacion := db.now }
          else p) },
      [Ev.stockWrite productId])

/-- `getLowStockProducts` (`WHERE stock <= stock_minimo ORDER BY stock ASC`). -/
def getLowStockProducts (db : DB) : List Producto :=
  List.insertionSort (fun a b => a.stock ≤ b.stock)
    (db.inventario.filter (fun p => p.stock ≤ p.stock_minimo))

/-! ## clienteDAO.js -/

/-- Input shape of a client submitted to `createClient`. -/
structure ClienteInput where
  nombre : String
  email : String
  telefono : Option String
  direccion : Option String
deriving DecidableEq

/-- `getClientByEmail` (`SELECT * FROM clientes WHERE email = $1`). -/
def getClientByEmail (email : String) (db : DB) : Option Cliente :=
  db.clientes.find? (fun c => c.email == email)

/-- `getClientById` (`SELECT * FROM clientes WHERE id = $1`). -/
def getClientById (clientId : Nat) (db : DB) : Option Cliente :=
  db.clientes.find? (fun c => c.id == clientId)

/-- The identity-conflict message thrown by `createClient`. -/
def emailConflictMsg (email existingNombre nombre : String) : String :=
  "Email " ++ email ++ " ya existe con diferente nombre: \"" ++ existingNombre
    ++ "\". Se esperaba: \"" ++ nombre ++ "\""

/-- `createClient`: looks up by email; on a hit with a different name
throws the identity conflict; on a hit with the same name returns the
existing row; otherwise inserts and returns the new row. -/
def createClient (c : ClienteInput) (db : DB) :
    Except String (Cliente × DB × List Ev) :=
  match getClientByEmail c.email db with
  | some existingClient =>
    if existingClient.nombre ≠ c.nombre then
      .error (emailConflictMsg c.email existingClient.nombre c.nombre)
    else
      .ok (existingClient, db, [])
  | none =>
    let newClient : Cliente :=
      { id := db.nextClienteId, nombre := c.nombre, email := c.email,
        telefono := c.telefono, direccion := c.direccion }
    .ok (newClient,
      { db with clientes := db.clientes ++ [newClient],
                nextClienteId := db.nextClienteId + 1 },
      [Ev.insertClient db.nextClienteId])

/-! ## pedidoDAO.js -/

/-- Input shape of an order submitted to `createOrder`. -/
structure OrderInfo where
  cliente_id : Nat
  producto_id : Nat
  cantidad : Int
  precio_unitario : Int
deriving DecidableEq

/-- `createOrder`: computes `total = cantidad * precio_unitario` and inserts.
The store enforces the foreign keys on `cliente_id`/`producto_id`
(surfaced by the DAO as the dedicated messages for error code 23503)
and `CHECK (cantidad > 0)` (surfaced through the generic
"Error creando pedido" wrap). -/
def createOrder (o : OrderInfo) (db : DB) :
    Except String (Pedido × DB × List Ev) :=
  if (db.clientes.find? (fun c => c.id == o.cliente_id)).isNone then
    .error ("Cliente con ID " ++ toString o.cliente_id ++ " no encontrado")
  else if (db.inventario.find? (fun p => p.id == o.producto_id)).isNone then
    .error ("Producto con ID " ++ toString o.producto_id ++ " no encontrado")
  else if o.cantidad ≤ 0 then
    .error ("Error creando pedido: el nuevo registro para la relación «pedidos» viola la restricción «check» «pedidos_cantidad_check»")
  else
    let pedido : Pedido :=
      { id := db.nextPedidoId, cliente_id := o.cliente_id,
        producto_id := o.producto_id, cantidad := o.cantidad,
        precio_unitario := o.precio_unitario,
        total := o.cantidad * o.precio_unitario,
        estado := "pendiente", fecha_pedido := db.now }
    .ok (pedido,
      { db with pedidos := db.pedidos ++ [pedido],
                nextPedidoId := db.nextPedidoId + 1 },
      [Ev.insertOrder db.nextPedidoId])

/-- `getOrderById`: an inner JOIN with `clientes` and `inventario`, so a
row is returned only when both referenced rows exist. -/
def getOrderById (orderId : Nat) (db : DB) : Option Pedido :=
  match db.pedidos.find? (fun p => p.id == orderId) with
  | none => none
  | some p =>
    if (db.clientes.any (fun c => c.id == p.cliente_id))
        && (db.inventario.any (fun i => i.id == p.producto_id)) then
      some p
    else none

/-- `getAllOrders`: JOIN rows ordered by `fecha_pedido DESC`. -/
def getAllOrders (db : DB) : List Pedido :=
  List.insertionSort (fun a b => b.fecha_pedido ≤ a.fecha_pedido)
    (db.pedidos.filter (fun p =>
      (db.clientes.any (fun c => c.id == p.cliente_id))
        && (db.inventario.any (fun i => i.id == p.producto_id))))

/-- `cancelOrder`: re-reads the row, then `DELETE FROM pedidos WHERE id`;
returns the pre-deletion row and the affected-row flag.  The inner
not-found throw passes through the catch block prefix. -/
def cancelOrder (orderId : Nat) (db : DB) :
    Except String ((Bool × Pedido) × DB × List Ev) :=
  match db.pedidos.find? (fun p => p.id == orderId) with
  | none => .error ("Error cancelando pedido: Pedido con ID " ++ toString orderId
      ++ " no encontrado")
  | some order =>
    .ok ((true, order),
      { db with pedidos := db.pedidos.filter (fun p => !(p.id == orderId)) },
      [Ev.deleteOrder orderId])

/-- `getOrderStatistics` (`COUNT`, `SUM(total)`, `AVG(total)`,
`COUNT(DISTINCT cliente_id)`; the average is kept as a rational). -/
structure Stats where
  total_pedidos : Nat
  ingresos_totales : Int
  promedio_pedido : Option Rat
  clientes_unicos : Nat
deriving DecidableEq

/-- `getOrderStatistics` over the `pedidos` table. -/
def getOrderStatistics (db : DB) : Stats :=
  { total_pedidos := db.pedidos.length
    ingresos_totales := (db.pedidos.map (fun p => p.total)).sum
    promedio_pedido :=
      if db.pedidos.length = 0 then none
      else some (((db.pedidos.map (fun p => p.total)).sum : Rat) / (db.pedidos.length : Rat))
    clientes_unicos := ((db.pedidos.map (fun p => p.cliente_id)).dedup).length }

/-! ## utils/transactionManager.js -/

/-- Failure behaviour of the infrastructure statements around one
transaction: `getClient()` from the pool, `BEGIN`, `COMMIT` and
`ROLLBACK`.  `none` means the statement succeeds; `some e` means it
throws the error `e`. -/
structure TxEnv where
  acquireErr : Option String
  beginErr : Option String
  commitErr : Option String
  rollbackErr : Option String
deriving DecidableEq

/-- The environment in which every infrastructure statement succeeds. -/
def TxEnv.allOk : TxEnv :=
  { acquireErr := none, beginErr := none, commitErr := none, rollbackErr := none }

/-- Events of the catch-block `ROLLBACK` attempt: a failing rollback is
caught and logged (`rollbackFailed`), never re-thrown. -/
def rollbackEvs (env : TxEnv) : List Ev :=
  match env.rollbackErr with
  | none => [Ev.txRollback]
  | some _ => [Ev.txRollback, Ev.rollbackFailed]

/-- `executeTransaction` of `utils/transactionManager.js`: acquires a
client, issues `BEGIN`, runs the unit of work, commits on success and
returns its result; on any throw issues `ROLLBACK` inside the catch
block (rollback errors only logged) and re-throws the original error;
the `finally` block releases the client whenever it was acquired.
The returned `DB` is the committed state: the unit of work's state on
commit, the original state on rollback. -/
def executeTransaction (env : TxEnv) (transactionFn : DB → Except String α × DB × List Ev)
    (db : DB) : Except String α × DB × List Ev :=
  match env.acquireErr with
  | some e => (.error e, db, [])
  | none =>
    match env.beginErr with
    | some e => (.error e, db, [Ev.acquire, Ev.txBegin] ++ rollbackEvs env ++ [Ev.release])
    | none =>
      match transactionFn db with
      | (.error e, _, evs) =>
        (.error e, db, [Ev.acquire, Ev.txBegin] ++ evs ++ rollbackEvs env ++ [Ev.release])
      | (.ok a, db1, evs) =>
        match env.commitErr with
        | some e =>
          (.error e, db, [Ev.acquire, Ev.txBegin] ++ evs ++ [Ev.txCommit]
            ++ rollbackEvs env ++ [Ev.release])
        | none =>
          (.ok a, db1, [Ev.acquire, Ev.txBegin] ++ evs ++ [Ev.txCommit, Ev.release])

/-! ## services/orderService.js -/

/-- Input of `processCompleteOrder` (`orderData`). -/
structure OrderData where
  cliente : ClienteInput
  producto : String
  cantidad : Int
  simulateError : Bool
deriving DecidableEq

/-- The summary block assembled by `processCompleteOrder`. -/
structure Resumen where
  cliente_nombre : String
  producto_nombre : String
  cantidad_pedida : Int
  precio_unitario : Int
  total_pedido : Int
  stock_anterior : Int
  stock_nuevo : Int
deriving DecidableEq

/-- The aggregate returned by `processCompleteOrder`. -/
structure OrderResult where
  cliente : Cliente
  producto : Producto
  pedido : Pedido
  resumen : Resumen
deriving DecidableEq

/-- The message `forceError` raises when `simulateError` is requested. -/
def simulatedErrorMsg : String :=
  "Error simulado: Problema en el sistema de pagos"

/-- Service-level product-not-found message (step 2). -/
def productoNotFoundMsg (producto : String) : String :=
  "Producto \"" ++ producto ++ "\" no encontrado en inventario"

/-- Service-level insufficient-stock message (step 3). -/
def serviceStockMsg (producto : String) (stock cantidad : Int) : String :=
  "Stock insuficiente para \"" ++ producto ++ "\". Stock actual: "
    ++ toString stock ++ ", solicitado: " ++ toString cantidad

/-- The unit of work of `processCompleteOrder`: create/reuse the client,
resolve the product by name, check stock, optionally `forceError`,
create the order row, decrement stock, assemble the result.  Its catch
block re-throws the caught error unchanged. -/
def processCompleteOrderUow (orderData : OrderData) (db0 : DB) :
    Except String OrderResult × DB × List Ev :=
  match createClient orderData.cliente db0 with
  | .error e => (.error e, db0, [])
  | .ok (createdClient, db1, ev1) =>
    match getProductByName orderData.producto db1 with
    | none => (.error (productoNotFoundMsg orderData.producto), db1, ev1)
    | some foundProduct =>
      match checkStock foundProduct.id orderData.cantidad db1 with
      | .error e => (.error e, db1, ev1)
      | .ok hasStock =>
        if !hasStock then
          (.error (serviceStockMsg orderData.producto foundProduct.stock orderData.cantidad),
            db1, ev1)
        else if orderData.simulateError then
          (.error simulatedErrorMsg, db1, ev1 ++ [Ev.simFault])
        else
          let orderInfo : OrderInfo :=
            { cliente_id := createdClient.id, producto_id := foundProduct.id,
              cantidad := orderData.cantidad, precio_unitario := foundProduct.precio }
          match createOrder orderInfo db1 with
          | .error e => (.error e, db1, ev1)
          | .ok (createdOrder, db2, ev2) =>
            match updateStock foundProduct.id orderData.cantidad db2 with
            | .error e => (.error e, db2, ev1 ++ ev2)
            | .ok (updatedProduct, db3, ev3) =>
              (.ok { cliente := createdClient, producto := updatedProduct,
                     pedido := createdOrder,
                     resumen := { cliente_nombre := createdClient.nombre,
                                  producto_nombre := foundProduct.producto,
                                  cantidad_pedida := orderData.cantidad,
                                  precio_unitario := foundProduct.precio,
                                  total_pedido := createdOrder.total,
                                  stock_anterior := foundProduct.stock,
                                  stock_nuevo := updatedProduct.stock } },
                db3, ev1 ++ ev2 ++ ev3)

/-- `processCompleteOrder`: the unit of work run through
`TransactionManager.executeOrderTransaction`, which delegates to
`executeTransaction` (here in the all-statements-succeed environment). -/
def processCompleteOrder (orderData : OrderData) (db : DB) :
    Except String OrderResult × DB × List Ev :=
  executeTransaction TxEnv.allOk (processCompleteOrderUow orderData) db

/-- Result of `cancelOrderAndRestoreInventory`. -/
structure CancelResult where
  order : Pedido
  producto : Producto
  mensaje : String
deriving DecidableEq

/-- The unit of work of `cancelOrderAndRestoreInventory`: re-read the
order (with its JOINs), reject a missing or already-cancelled order,
delete the row, and add the order's quantity back to the product's
stock. -/
def cancelOrderUow (orderId : Nat) (db : DB) :
    Except String CancelResult × DB × List Ev :=
  match getOrderById orderId db with
  | none => (.error ("Pedido con ID " ++ toString orderId ++ " no encontrado"), db, [])
  | some order =>
    if order.estado == "cancelado" then
      (.error "El pedido ya está cancelado", db, [])
    else
      match cancelOrder orderId db with
      | .error e => (.error e, db, [])
      | .ok (cancelResult, db1, ev1) =>
        match restoreStock order.producto_id order.cantidad db1 with
        | .error e => (.error e, db1, ev1)
        | .ok (restoredProduct, db2, ev2) =>
          (.ok { order := cancelResult.2, producto := restoredProduct,
                 mensaje := "Pedido " ++ toString orderId ++ " cancelado y stock restaurado" },
            db2, ev1 ++ ev2)

/-- `cancelOrderAndRestoreInventory`, wrapped in its transaction. -/
def cancelOrderAndRestoreInventory (orderId : Nat) (db : DB) :
    Except String CancelResult × DB × List Ev :=
  executeTransaction TxEnv.allOk (cancelOrderUow orderId) db

/-- One successful batch entry (`{ index, success: true, data }`). -/
structure ItemOk where
  index : Nat
  data : OrderResult
deriving DecidableEq

/-- One failed batch entry (`{ index, success: false, error }`). -/
structure ItemErr where
  index : Nat
  error : String
deriving DecidableEq

/-- The summary object returned by `batchProcessOrders`. -/
structure BatchResult where
  total : Nat
  processed : Nat
  successful : Nat
  failed : Nat
  results : List ItemOk
  errors : List ItemErr
deriving DecidableEq

/-- The loop of `batchProcessOrders`: each order is run through
`processCompleteOrder` (its own transaction) against the database
committed so far; with `stopOnError` the loop breaks after the first
failure. -/
def batchGo (ordersData : List OrderData) (i : Nat) (stopOnError : Bool) (db : DB) :
    List ItemOk × List ItemErr × DB :=
  match ordersData with
  | [] => ([], [], db)
  | od :: rest =>
    match processCompleteOrder od db with
    | (.ok r, db1, _) =>
      let (rs, es, db2) := batchGo rest (i + 1) stopOnError db1
      (⟨i, r⟩ :: rs, es, db2)
    | (.error e, db1, _) =>
      if stopOnError then ([], [⟨i, e⟩], db1)
      else
        let (rs, es, db2) := batchGo rest (i + 1) stopOnError db1
        (rs, ⟨i, e⟩ :: es, db2)

/-- `batchProcessOrders`: runs the loop from index 0 and assembles the
summary record. -/
def batchProcessOrders (ordersData : List OrderData) (stopOnError : Bool) (db : DB) :
    BatchResult × DB :=
  let (results, errors, db1) := batchGo ordersData 0 stopOnError db
  ({ total := ordersData.length, processed := results.length,
     successful := results.length, failed := errors.length,
     results := results, errors := errors }, db1)

/-- The summary returned by `getOrderSummary`. -/
structure SummaryResult where
  estadisticas : Stats
  pedidos_recientes : List Pedido
  productos_stock_bajo : List Producto
deriving DecidableEq

/-- The unit of work of `getOrderSummary`: statistics, all orders (of
which only the first 10 — the most recent — are kept), and the
low-stock list. -/
def getOrderSummaryUow (db : DB) : Except String SummaryResult × DB × List Ev :=
  (.ok { estadisticas := getOrderStatistics db,
         pedidos_recientes := (getAllOrders db).take 10,
         productos_stock_bajo := getLowStockProducts db },
    db, [])

/-- `getOrderSummary`, wrapped in its transaction. -/
def getOrderSummary (db : DB) : Except String SummaryResult × DB × List Ev :=
  executeTransaction TxEnv.allOk getOrderSummaryUow db

/-! ## Multi-product order processing (spec §4.4)

The repository's HTTP route (`src/unnamed/part_003`) normalizes a
request into either `{ cliente, producto, cantidad }` or
`{ cliente, productos: [...] }` and hands both shapes to
`orderService.processCompleteOrder`, reading `result.pedidos` and
`result.resumen.productos_detalle` from the answer — fields the
single-product `services/orderService.js` shipped under `src/` never
produces.  The multi-product revision of the orchestrator is therefore
code of this repository missing from `src/`; the definitions below
model it from the spec. -/

/-- One `{product, quantity}` pair of an order request. -/
structure ProductoReq where
  producto : String
  cantidad : Int
deriving DecidableEq

/-- Modelled from the spec: the input shape of the multi-product
orchestrator — a single pair, a list of pairs, or neither. -/
structure MultiOrderData where
  cliente : ClienteInput
  single : Option ProductoReq
  productos : Option (List ProductoReq)
  simulateError : Bool
deriving DecidableEq

/-- The ValidationError message (wording from the route in
`src/unnamed/part_003`). -/
def validationErrorMsg : String :=
  "ValidationError: Missing product data. Provide either \"producto\"+\"cantidad\" or \"productos\" array"

/-- Modelled from the spec: step 1 (Normalize) of the missing
multi-product orchestrator — accept either a single pair or a
non-empty list of pairs; reject with ValidationError when neither is
present, before any transaction is opened. -/
def normalizeProducts (od : MultiOrderData) : Except String (List ProductoReq) :=
  match od.single with
  | some pr => .ok [pr]
  | none =>
    match od.productos with
    | some l => if l.isEmpty then .error validationErrorMsg else .ok l
    | none => .error validationErrorMsg

/-- Modelled from the spec: step 3 (Validate every product) of the
missing multi-product orchestrator — resolve each pair by name
(ProductNotFound if absent), then check stock (InsufficientStock if
short), all against the pre-write state, before anything is mutated. -/
def validateProducts (items : List ProductoReq) (db : DB) :
    Except String (List (Producto × Int)) :=
  match items with
  | [] => .ok []
  | pr :: rest =>
    match getProductByName pr.producto db with
    | none => .error (productoNotFoundMsg pr.producto)
    | some p =>
      if p.stock < pr.cantidad then
        .error (serviceStockMsg pr.producto p.stock pr.cantidad)
      else
        match validateProducts rest db with
        | .error e => .error e
        | .ok l => .ok ((p, pr.cantidad) :: l)

/-- Modelled from the spec: step 5 (Persist) of the missing
multi-product orchestrator — for each validated product, create the
order row, then decrement stock. -/
def persistValidated (clienteId : Nat) (items : List (Producto × Int)) (db : DB) :
    Except String (List Pedido × List Producto) × DB × List Ev :=
  match items with
  | [] => (.ok ([], []), db, [])
  | (p, qty) :: rest =>
    let orderInfo : OrderInfo :=
      { cliente_id := clienteId, producto_id := p.id,
        cantidad := qty, precio_unitario := p.precio }
    match createOrder orderInfo db with
    | .error e => (.error e, db, [])
    | .ok (ped, db1, ev1) =>
      match updateStock p.id qty db1 with
      | .error e => (.error e, db1, ev1)
      | .ok (prod1, db2, ev2) =>
        match persistValidated clienteId rest db2 with
        | (.error e, db3, evs) => (.error e, db3, ev1 ++ ev2 ++ evs)
        | (.ok (peds, prods), db3, evs) =>
          (.ok (ped :: peds, prod1 :: prods), db3, ev1 ++ ev2 ++ evs)

/-- Modelled from the spec: the aggregate returned by the missing
multi-product orchestrator. -/
structure MultiOrderResult where
  cliente : Cliente
  pedidos : List Pedido
  productos : List Producto
  valor_total : Int
deriving DecidableEq

/-- Modelled from the spec: the unit of work of the missing
multi-product orchestrator — resolve the customer (step 2), validate
every product before mutating anything (step 3), optionally raise the
injected fault (step 4), then persist order rows and stock decrements
(step 5) and assemble the aggregate (step 6). -/
def processMultiUow (od : MultiOrderData) (items : List ProductoReq) (db0 : DB) :
    Except String MultiOrderResult × DB × List Ev :=
  match createClient od.cliente db0 with
  | .error e => (.error e, db0, [])
  | .ok (cli, db1, ev1) =>
    match validateProducts items db1 with
    | .error e => (.error e, db1, ev1)
    | .ok validated =>
      if od.simulateError then
        (.error simulatedErrorMsg, db1, ev1 ++ [Ev.simFault])
      else
        match persistValidated cli.id validated db1 with
        | (.error e, db2, evs) => (.error e, db2, ev1 ++ evs)
        | (.ok (peds, prods), db2, evs) =>
          (.ok { cliente := cli, pedidos := peds, productos := prods,
                 valor_total := (peds.map (fun p => p.total)).sum },
            db2, ev1 ++ evs)

/-- Modelled from the spec: the missing multi-product
`processCompleteOrder` — normalization happens before the transaction
is opened (ValidationError needs no rollback), and the normalized unit
of work runs atomically through `executeTransaction`. -/
def processCompleteOrderMulti (od : MultiOrderData) (db : DB) :
    Except String MultiOrderResult × DB × List Ev :=
  match normalizeProducts od with
  | .error e => (.error e, db, [])
  | .ok items => executeTransaction TxEnv.allOk (processMultiUow od items) db

/-! ## Sample rows (seed data of `database/init.js`), used as concrete
witnesses.  Prices are in whole pesos (the `DECIMAL(10,2)` cents do not
matter for any property proved here). -/

/-- Seed product `Laptop Gaming`. -/
def prodLaptop : Producto :=
  { id := 1, producto := "Laptop Gaming", descripcion := "Laptop de alta gama para gaming",
    precio := 1300, stock := 10, stock_minimo := 5, fecha_actualizacion := 0 }

/-- Seed product `Mouse Inalámbrico`. -/
def prodMouse : Producto :=
  { id := 2, producto := "Mouse Inalámbrico", descripcion := "Mouse ergonómico inalámbrico",
    precio := 30, stock := 50, stock_minimo := 5, fecha_actualizacion := 0 }

/-- Seed product `Monitor 4K`. -/
def prodMonitor : Producto :=
  { id := 3, producto := "Monitor 4K", descripcion := "Monitor 27 pulgadas 4K",
    precio := 400, stock := 8, stock_minimo := 5, fecha_actualizacion := 0 }

/-- The freshly initialized store. -/
def dbInit : DB :=
  { clientes := [], inventario := [prodLaptop, prodMouse, prodMonitor], pedidos := [],
    nextClienteId := 1, nextPedidoId := 1, now := 0 }

/-- A sample customer input (Scenario A of the spec). -/
def clienteJuan : ClienteInput :=
  { nombre := "Juan Pérez", email := "juan@email.com",
    telefono := some "+56912345678", direccion := none }

/-! ## Shared lemmas about the transaction wrapper -/

/-- In the all-statements-succeed environment, the wrapper commits the
unit of work's state on `ok` and rolls back to the caller's state on
`error`. -/
theorem executeTransaction_allOk_eq (transactionFn : DB → Except String α × DB × List Ev)
    (db : DB) :
    executeTransaction TxEnv.allOk transactionFn db =
      match transactionFn db with
      | (.ok a, db1, evs) =>
        (.ok a, db1, [Ev.acquire, Ev.txBegin] ++ evs ++ [Ev.txCommit, Ev.release])
      | (.error e, _, evs) =>
        (.error e, db, [Ev.acquire, Ev.txBegin] ++ evs ++ [Ev.txRollback, Ev.release]) := by
  rcases h : transactionFn db with ⟨r, db1, evs⟩
  cases r <;> simp [executeTransaction, TxEnv.allOk, rollbackEvs, h]

/-- A failing unit of work leaves the committed state untouched. -/
theorem executeTransaction_allOk_error (transactionFn : DB → Except String α × DB × List Ev)
    (db db1 : DB) (e : String) (evs : List Ev)
    (h : transactionFn db = (.error e, db1, evs)) :
    executeTransaction TxEnv.allOk transactionFn db =
      (.error e, db, [Ev.acquire, Ev.txBegin] ++ evs ++ [Ev.txRollback, Ev.release]) := by
  rw [executeTransaction_allOk_eq, h]

/-- A successful unit of work commits its state. -/
theorem executeTransaction_allOk_ok (transactionFn : DB → Except String α × DB × List Ev)
    (db db1 : DB) (a : α) (evs : List Ev)
    (h : transactionFn db = (.ok a, db1, evs)) :
    executeTransaction TxEnv.allOk transactionFn db =
      (.ok a, db1, [Ev.acquire, Ev.txBegin] ++ evs ++ [Ev.txCommit, Ev.release]) := by
  rw [executeTransaction_allOk_eq, h]

/-- Claim C1: for every unit of work run through `executeTransaction`
with the connection acquired: a normal return commits and hands back
the unit's result; a throw issues ROLLBACK and re-raises the original
error unchanged with the pre-transaction state as the committed state
(this holds for every rollback behaviour, so a failing ROLLBACK — which
is logged as `rollbackFailed` — never replaces the original error); and
on every such path the connection is released exactly once. -/
theorem c1_executeTransaction_contract (env : TxEnv) {α : Type}
    (transactionFn : DB → Except String α × DB × List Ev) (db : DB)
    (hacq : env.acquireErr = none)
    (hfn : Ev.release ∉ (transactionFn db).2.2) :
    (∀ a db1 evs, env.beginErr = none → env.commitErr = none →
        transactionFn db = (.ok a, db1, evs) →
        executeTransaction env transactionFn db
          = (.ok a, db1, [Ev.acquire, Ev.txBegin] ++ evs ++ [Ev.txCommit, Ev.release])) ∧
    (∀ e db1 evs, env.beginErr = none → transactionFn db = (.error e, db1, evs) →
        (executeTransaction env transactionFn db).1 = .error e ∧
        (executeTransaction env transactionFn db).2.1 = db ∧
        Ev.txRollback ∈ (executeTransaction env transactionFn db).2.2 ∧
        (∀ re, env.rollbackErr = some re →
          Ev.rollbackFailed ∈ (executeTransaction env transactionFn db).2.2)) ∧
    ((executeTransaction env transactionFn db).2.2).count Ev.release = 1 := by
  refine ⟨?_, ?_, ?_⟩
  · intro a db1 evs hb hc h
    simp [executeTransaction, hacq, hb, hc, h]
  · intro e db1 evs hb h
    cases hr : env.rollbackErr <;>
      simp [executeTransaction, hacq, hb, h, rollbackEvs, hr]
  · rcases htf : transactionFn db with ⟨r, db1, evs⟩
    rw [htf] at hfn
    simp only at hfn
    cases hb : env.beginErr with
    | some e =>
      cases hr : env.rollbackErr <;>
        simp [executeTransaction, hacq, hb, rollbackEvs, hr, List.count_append,
          List.count_cons, List.count_singleton]
    | none =>
      cases r with
      | error e =>
        cases hr : env.rollbackErr <;>
          simp [executeTransaction, hacq, hb, htf, rollbackEvs, hr, List.count_append,
            List.count_cons, List.count_eq_zero, hfn]
      | ok a =>
        cases hc : env.commitErr with
        | some e =>
          cases hr : env.rollbackErr <;>
            simp [executeTransaction, hacq, hb, hc, htf, rollbackEvs, hr, List.count_append,
              List.count_cons, List.count_eq_zero, hfn]
        | none =>
          simp [executeTransaction, hacq, hb, hc, htf, List.count_append,
            List.count_cons, List.count_eq_zero, hfn]

/-- Witness for C1 at a concrete input: a unit of work that fails with
`"boom"` under an environment whose ROLLBACK itself fails — the
original error still surfaces, rollback and its failure are in the
trace, and the connection is released exactly once. -/
theorem c1_executeTransaction_contract_witness :
    ((TxEnv.mk none none none (some "rollback down")).acquireErr = none) ∧
    ((executeTransaction (TxEnv.mk none none none (some "rollback down"))
        (fun d => ((.error "boom" : Except String Nat), d, [])) dbInit).1
      = .error "boom") ∧
    ((executeTransaction (TxEnv.mk none none none (some "rollback down"))
        (fun d => ((.error "boom" : Except String Nat), d, [])) dbInit).2.2).count Ev.release
      = 1 := by
  have h := c1_executeTransaction_contract (TxEnv.mk none none none (some "rollback down"))
    (fun d => ((.error "boom" : Except String Nat), d, [])) dbInit rfl (by simp)
  exact ⟨rfl, (h.2.1 "boom" dbInit [] rfl rfl).1, h.2.2⟩

/-! ## Claim C3: customer create-or-reuse -/

/-- Claim C3: `createClient` looks up by email; if absent it inserts and
returns the new row; if present with the same stored name it returns
the existing row with the state unchanged and no insert event; if the
stored name differs it fails with the identity-conflict error naming
both names — no state is produced, so no customer row is created or
mutated and the insert is never attempted. -/
theorem c3_createClient_contract (c : ClienteInput) (db : DB) :
    (∀ existing, getClientByEmail c.email db = some existing →
      (existing.nombre = c.nombre → createClient c db = .ok (existing, db, [])) ∧
      (existing.nombre ≠ c.nombre →
        createClient c db = .error (emailConflictMsg c.email existing.nombre c.nombre))) ∧
    (getClientByEmail c.email db = none →
      ∃ newClient, createClient c db = .ok (newClient,
          { db with clientes := db.clientes ++ [newClient],
                    nextClienteId := db.nextClienteId + 1 },
          [Ev.insertClient db.nextClienteId]) ∧
        newClient.id = db.nextClienteId ∧ newClient.nombre = c.nombre ∧
        newClient.email = c.email) := by
  constructor
  · intro existing hex
    constructor
    · intro hn
      simp [createClient, hex, hn]
    · intro hn
      simp [createClient, hex, hn]
  · intro hnone
    refine ⟨{ id := db.nextClienteId, nombre := c.nombre, email := c.email, telefono := c.telefono, direccion := c.direccion }, ?_, rfl, rfl, rfl⟩
    simp [createClient, hnone]

/-- The row inserted for Juan by the first order (Scenario A). -/
def clienteJuanRow : Cliente :=
  { id := 1, nombre := "Juan Pérez", email := "juan@email.com",
    telefono := some "+56912345678", direccion := none }

/-- The store after Juan has registered. -/
def dbWithJuan : DB :=
  { dbInit with clientes := [clienteJuanRow], nextClienteId := 2 }

/-- A resubmission of Juan's email under a different name. -/
def clientePedroFalso : ClienteInput :=
  { nombre := "Pedro Falso", email := "juan@email.com", telefono := none, direccion := none }

/-- Witness for C3 at concrete inputs: after Juan registers, the same
email with a different name is rejected with the conflict message. -/
theorem c3_createClient_contract_witness :
    createClient clientePedroFalso dbWithJuan
      = .error (emailConflictMsg "juan@email.com" "Juan Pérez" "Pedro Falso") := by
  exact ((c3_createClient_contract clientePedroFalso dbWithJuan).1
    clienteJuanRow (by decide)).2 (by decide)

/-! ## Claim C4: stock decrement -/

/-- Claim C4: `updateStock` re-reads the current stock `s`, computes
`newStock = s - quantity`, fails with the insufficient-stock error
exactly when `newStock < 0` (producing no new state, so the row is
unchanged), and otherwise writes `newStock` and the refreshed
timestamp, returning the post-update row whose stock is `s - quantity`. -/
theorem c4_updateStock_contract (productId : Nat) (quantity : Int) (db : DB)
    (product : Producto)
    (hfind : db.inventario.find? (fun p => p.id == productId) = some product) :
    (product.stock - quantity < 0 →
      updateStock productId quantity db
        = .error ("Error actualizando stock: " ++ stockInsuficienteMsg product.stock quantity)) ∧
    (0 ≤ product.stock - quantity →
      updateStock productId quantity db = .ok
        ({ product with stock := product.stock - quantity, fecha_actualizacion := db.now },
         { db with inventario := db.inventario.map (fun p =>
             if p.id == productId then
               { p with stock := product.stock - quantity, fecha_actualizacion := db.now }
             else p) },
         [Ev.stockWrite productId])) := by
  constructor
  · intro hlt
    simp [updateStock, hfind, hlt]
  · intro hge
    have hnlt : ¬ product.stock - quantity < 0 := not_lt.mpr hge
    simp [updateStock, hfind, hnlt]

/-- Witness for C4 at concrete inputs: on the seed store, asking for 15
laptops (stock 10) fails with the insufficient-stock message, and
asking for 2 succeeds with post-update stock 8. -/
theorem c4_updateStock_contract_witness :
    updateStock 1 15 dbInit
      = .error ("Error actualizando stock: " ++ stockInsuficienteMsg 10 15) ∧
    ∃ u db1 evs, updateStock 1 2 dbInit = .ok (u, db1, evs) ∧ u.stock = 8 := by
  constructor
  · exact (c4_updateStock_contract 1 15 dbInit prodLaptop (by decide)).1 (by decide)
  · refine ⟨_, _, _, (c4_updateStock_contract 1 2 dbInit prodLaptop (by decide)).2 (by decide), ?_⟩
    decide

/-! ## Claim C7: decrement/restore round-trip -/

/-- A `find?`-by-id query commutes with an id-preserving row update. -/
theorem find?_id_map (l : List Producto) (productId : Nat) (g : Producto → Producto)
    (hg : ∀ p, (g p).id = p.id) :
    (l.map g).find? (fun p => p.id == productId)
      = (l.find? (fun p => p.id == productId)).map g := by
  rw [List.find?_map]
  have : ((fun p : Producto => p.id == productId) ∘ g)
      = (fun p : Producto => p.id == productId) := by
    funext p
    simp [Function.comp, hg]
  rw [this]

/-- Claim C7: whenever `updateStock p q` succeeds, the subsequent
`restoreStock p q` succeeds and returns the row's stock to exactly its
pre-decrement value, both in the returned row and in the stored row. -/
theorem c7_decrement_restore_roundtrip (productId : Nat) (quantity : Int) (db : DB)
    (product : Producto)
    (hfind : db.inventario.find? (fun p => p.id == productId) = some product)
    (updated : Producto) (db1 : DB) (evs : List Ev)
    (h : updateStock productId quantity db = .ok (updated, db1, evs)) :
    ∃ restored db2 evs2, restoreStock productId quantity db1 = .ok (restored, db2, evs2) ∧
      restored.stock = product.stock ∧
      getProductById productId db2 = some restored := by
  have hpid : product.id = productId := by
    have h' := List.find?_some hfind
    simpa using h'
  simp only [updateStock, hfind] at h
  by_cases hlt : product.stock - quantity < 0
  · simp [hlt] at h
  · rw [if_neg hlt] at h
    simp only [Except.ok.injEq, Prod.mk.injEq] at h
    obtain ⟨hu, hdb, hev⟩ := h
    subst hu hdb hev
    have hfind1 :
        ({ db with inventario := db.inventario.map (fun p =>
            if p.id == productId then
              { p with stock := product.stock - quantity, fecha_actualizacion := db.now }
            else p) } : DB).inventario.find? (fun p => p.id == productId)
          = some { product with stock := product.stock - quantity, fecha_actualizacion := db.now } := by
      show (db.inventario.map _).find? _ = _
      rw [find?_id_map _ _ _ (fun p => by by_cases hc : p.id = productId <;> simp [hc]), hfind]
      simp [hpid]
    unfold restoreStock
    rw [hfind1]
    refine ⟨_, _, _, rfl, by simp, ?_⟩
    unfold getProductById
    show ((db.inventario.map _).map _).find? _ = _
    rw [find?_id_map _ _ _ (fun p => by by_cases hc : p.id = productId <;> simp [hc]), hfind1]
    simp [hpid]

/-- Witness for C7 at a concrete input: decrementing 2 laptops from the
seed store and restoring 2 brings the stored stock back to 10. -/
theorem c7_decrement_restore_roundtrip_witness :
    ∃ restored db2 evs2,
      restoreStock 1 2 { dbInit with inventario := [{ prodLaptop with stock := 8 }, prodMouse, prodMonitor] } = .ok (restored, db2, evs2) ∧
      restored.stock = prodLaptop.stock ∧
      getProductById 1 db2 = some restored := by
  exact c7_decrement_restore_roundtrip 1 2 dbInit prodLaptop (by decide)
    { prodLaptop with stock := 8 }
    { dbInit with inventario := [{ prodLaptop with stock := 8 }, prodMouse, prodMonitor] }
    [Ev.stockWrite 1] (by rfl)

/-! ## Claim C2: the stock invariant -/

/-- The stock invariant: every stored product has non-negative stock. -/
def stockInv (db : DB) : Prop := ∀ p ∈ db.inventario, 0 ≤ p.stock

/-- The store's `CHECK (cantidad > 0)` on `pedidos`, as a state
predicate. -/
def pedidosPos (db : DB) : Prop := ∀ o ∈ db.pedidos, 0 < o.cantidad

/-- A successful `updateStock` preserves the stock invariant and
touches only `inventario`. -/
theorem updateStock_preserves (productId : Nat) (quantity : Int) (db : DB)
    (u : Producto) (db1 : DB) (evs : List Ev)
    (h : updateStock productId quantity db = .ok (u, db1, evs)) (hinv : stockInv db) :
    stockInv db1 ∧ db1.pedidos = db.pedidos ∧ db1.clientes = db.clientes := by
  cases hf : db.inventario.find? (fun p => p.id == productId) with
  | none => simp [updateStock, hf] at h
  | some product =>
    simp only [updateStock, hf] at h
    by_cases hlt : product.stock - quantity < 0
    · simp [hlt] at h
    · rw [if_neg hlt] at h
      simp only [Except.ok.injEq, Prod.mk.injEq] at h
      obtain ⟨hu, hdb, hev⟩ := h
      subst hdb
      refine ⟨?_, rfl, rfl⟩
      intro p hp
      rw [List.mem_map] at hp
      obtain ⟨p0, hp0, rfl⟩ := hp
      by_cases hc : p0.id = productId
      · simp [hc]
        omega
      · simp [hc]
        exact hinv p0 hp0

/-- A successful `restoreStock` with a non-negative quantity preserves
the stock invariant and touches only `inventario`. -/
theorem restoreStock_preserves (productId : Nat) (quantity : Int) (db : DB)
    (u : Producto) (db1 : DB) (evs : List Ev)
    (h : restoreStock productId quantity db = .ok (u, db1, evs))
    (hq : 0 ≤ quantity) (hinv : stockInv db) :
    stockInv db1 ∧ db1.pedidos = db.pedidos ∧ db1.clientes = db.clientes := by
  cases hf : db.inventario.find? (fun p => p.id == productId) with
  | none => simp [restoreStock, hf] at h
  | some product =>
    simp only [restoreStock, hf] at h
    simp only [Except.ok.injEq, Prod.mk.injEq] at h
    obtain ⟨hu, hdb, hev⟩ := h
    subst hdb
    refine ⟨?_, rfl, rfl⟩
    intro p hp
    rw [List.mem_map] at hp
    obtain ⟨p0, hp0, rfl⟩ := hp
    by_cases hc : p0.id = productId
    · simp [hc]
      have := hinv p0 hp0
      omega
    · simp [hc]
      exact hinv p0 hp0

/-- A successful `createClient` leaves `inventario` and `pedidos`
untouched. -/
theorem createClient_preserves (c : ClienteInput) (db : DB)
    (cl : Cliente) (db1 : DB) (evs : List Ev)
    (h : createClient c db = .ok (cl, db1, evs)) :
    db1.inventario = db.inventario ∧ db1.pedidos = db.pedidos := by
  cases hf : getClientByEmail c.email db with
  | some existing =>
    by_cases hn : existing.nombre ≠ c.nombre
    · simp [createClient, hf, hn] at h
    · simp only [createClient, hf, hn, if_neg, reduceIte, Except.ok.injEq, Prod.mk.injEq] at h
      obtain ⟨-, hdb, -⟩ := h
      subst hdb
      exact ⟨rfl, rfl⟩
  | none =>
    simp only [createClient, hf, Except.ok.injEq, Prod.mk.injEq] at h
    obtain ⟨-, hdb, -⟩ := h
    subst hdb
    exact ⟨rfl, rfl⟩

/-- A successful `createOrder` appends one order with positive quantity
(the store's `CHECK (cantidad > 0)`) and leaves the other tables
untouched. -/
theorem createOrder_preserves (o : OrderInfo) (db : DB)
    (ped : Pedido) (db1 : DB) (evs : List Ev)
    (h : createOrder o db = .ok (ped, db1, evs)) :
    db1.inventario = db.inventario ∧ db1.clientes = db.clientes ∧
    db1.pedidos = db.pedidos ++ [ped] ∧ 0 < ped.cantidad := by
  unfold createOrder at h
  by_cases h1 : (db.clientes.find? (fun c => c.id == o.cliente_id)).isNone
  · simp [h1] at h
  · by_cases h2 : (db.inventario.find? (fun p => p.id == o.producto_id)).isNone
    · simp [h1, h2] at h
    · by_cases h3 : o.cantidad ≤ 0
      · simp [h1, h2, h3] at h
      · simp only [h1, h2, h3, if_neg, reduceIte, Bool.false_eq_true,
          Except.ok.injEq, Prod.mk.injEq] at h
        obtain ⟨hped, hdb, -⟩ := h
        subst hdb
        refine ⟨rfl, rfl, by rw [hped], ?_⟩
        rw [← hped]
        simp
        omega

/-- A successful `cancelOrder` deletes exactly the matching order rows
and touches nothing else. -/
theorem cancelOrder_preserves (orderId : Nat) (db : DB)
    (res : Bool × Pedido) (db1 : DB) (evs : List Ev)
    (h : cancelOrder orderId db = .ok (res, db1, evs)) :
    db1.inventario = db.inventario ∧ db1.clientes = db.clientes ∧
    db1.pedidos = db.pedidos.filter (fun p => !(p.id == orderId)) := by
  cases hf : db.pedidos.find? (fun p => p.id == orderId) with
  | none => simp [cancelOrder, hf] at h
  | some order =>
    simp only [cancelOrder, hf, Except.ok.injEq, Prod.mk.injEq] at h
    obtain ⟨-, hdb, -⟩ := h
    subst hdb
    exact ⟨rfl, rfl, rfl⟩

/-- An order returned by `getOrderById` is a stored order row. -/
theorem getOrderById_mem (orderId : Nat) (db : DB) (order : Pedido)
    (h : getOrderById orderId db = some order) : order ∈ db.pedidos := by
  unfold getOrderById at h
  cases hf : db.pedidos.find? (fun p => p.id == orderId) with
  | none => rw [hf] at h; simp at h
  | some p =>
    rw [hf] at h
    by_cases hj : (db.clientes.any (fun c => c.id == p.cliente_id))
        && (db.inventario.any (fun i => i.id == p.producto_id))
    · simp only [hj, if_true, Option.some.injEq] at h
      subst h
      exact List.mem_of_find?_eq_some hf
    · simp [hj] at h

/-- The unit of work of `processCompleteOrder` preserves the stock
invariant and the positive-quantity constraint on orders. -/
theorem processCompleteOrderUow_preserves (od : OrderData) (db : DB)
    (hinv : stockInv db) (hped : pedidosPos db)
    (r : OrderResult) (db1 : DB) (evs : List Ev)
    (h : processCompleteOrderUow od db = (.ok r, db1, evs)) :
    stockInv db1 ∧ pedidosPos db1 := by
  cases h1 : createClient od.cliente db with
  | error e => simp [processCompleteOrderUow, h1] at h
  | ok t =>
    obtain ⟨cli, dbA, ev1⟩ := t
    simp only [processCompleteOrderUow, h1] at h
    have hA := createClient_preserves od.cliente db cli dbA ev1 h1
    have hinvA : stockInv dbA := by unfold stockInv; rw [hA.1]; exact hinv
    have hpedA : pedidosPos dbA := by unfold pedidosPos; rw [hA.2]; exact hped
    cases h2 : getProductByName od.producto dbA with
    | none => simp [h2] at h
    | some prod =>
      simp only [h2] at h
      cases h3 : checkStock prod.id od.cantidad dbA with
      | error e => simp [h3] at h
      | ok hasStock =>
        simp only [h3] at h
        cases hasStock with
        | false => simp at h
        | true =>
          simp only [Bool.not_true, Bool.false_eq_true, if_false] at h
          cases hsim : od.simulateError with
          | true => simp [hsim] at h
          | false =>
            simp only [hsim, Bool.false_eq_true, if_false] at h
            cases h6 : createOrder (OrderInfo.mk cli.id prod.id od.cantidad prod.precio) dbA with
            | error e => simp [h6] at h
            | ok t2 =>
              obtain ⟨ped, dbB, ev2⟩ := t2
              simp only [h6] at h
              have hB := createOrder_preserves _ dbA ped dbB ev2 h6
              have hinvB : stockInv dbB := by unfold stockInv; rw [hB.1]; exact hinvA
              have hpedB : pedidosPos dbB := by
                unfold pedidosPos
                rw [hB.2.2.1]
                intro o ho
                rcases List.mem_append.mp ho with ho1 | ho1
                · exact hpedA o ho1
                · rw [List.mem_singleton.mp ho1]
                  exact hB.2.2.2
              cases h7 : updateStock prod.id od.cantidad dbB with
              | error e => simp [h7] at h
              | ok t3 =>
                obtain ⟨u, dbC, ev3⟩ := t3
                simp only [h7] at h
                have hC := updateStock_preserves prod.id od.cantidad dbB u dbC ev3 h7 hinvB
                simp only [Prod.mk.injEq, Except.ok.injEq] at h
                obtain ⟨-, hdb1, -⟩ := h
                subst hdb1
                refine ⟨hC.1, ?_⟩
                unfold pedidosPos
                rw [hC.2.1]
                exact hpedB

/-- `processCompleteOrder` (the wrapped transaction) preserves both
state invariants on its committed state, on success and on rollback. -/
theorem processCompleteOrder_preserves (od : OrderData) (db : DB)
    (hinv : stockInv db) (hped : pedidosPos db) :
    stockInv (processCompleteOrder od db).2.1 ∧ pedidosPos (processCompleteOrder od db).2.1 := by
  rcases hu : processCompleteOrderUow od db with ⟨r, db1, evs⟩
  cases r with
  | error e =>
    rw [processCompleteOrder, executeTransaction_allOk_error _ db db1 e evs hu]
    exact ⟨hinv, hped⟩
  | ok a =>
    rw [processCompleteOrder, executeTransaction_allOk_ok _ db db1 a evs hu]
    exact processCompleteOrderUow_preserves od db hinv hped a db1 evs hu

/-- The unit of work of `cancelOrderAndRestoreInventory` preserves both
state invariants. -/
theorem cancelOrderUow_preserves (orderId : Nat) (db : DB)
    (hinv : stockInv db) (hped : pedidosPos db)
    (r : CancelResult) (db1 : DB) (evs : List Ev)
    (h : cancelOrderUow orderId db = (.ok r, db1, evs)) :
    stockInv db1 ∧ pedidosPos db1 := by
  cases h1 : getOrderById orderId db with
  | none => simp [cancelOrderUow, h1] at h
  | some order =>
    simp only [cancelOrderUow, h1] at h
    have hmem : order ∈ db.pedidos := getOrderById_mem orderId db order h1
    have hqpos : 0 < order.cantidad := hped order hmem
    cases hb : (order.estado == "cancelado") with
    | true => simp [hb] at h
    | false =>
      simp only [hb, Bool.false_eq_true, if_false] at h
      cases h3 : cancelOrder orderId db with
      | error e => simp [h3] at h
      | ok t =>
        obtain ⟨res, dbA, ev1⟩ := t
        simp only [h3] at h
        have hA := cancelOrder_preserves orderId db res dbA ev1 h3
        have hinvA : stockInv dbA := by unfold stockInv; rw [hA.1]; exact hinv
        have hpedA : pedidosPos dbA := by
          unfold pedidosPos
          rw [hA.2.2]
          intro o ho
          exact hped o (List.mem_of_mem_filter ho)
        cases h4 : restoreStock order.producto_id order.cantidad dbA with
        | error e => simp [h4] at h
        | ok t2 =>
          obtain ⟨u, dbB, ev2⟩ := t2
          simp only [h4] at h
          have hB := restoreStock_preserves order.producto_id order.cantidad dbA u dbB ev2 h4
            (le_of_lt hqpos) hinvA
          simp only [Prod.mk.injEq, Except.ok.injEq] at h
          obtain ⟨-, hdb1, -⟩ := h
          subst hdb1
          refine ⟨hB.1, ?_⟩
          unfold pedidosPos
          rw [hB.2.1]
          exact hpedA

/-- `cancelOrderAndRestoreInventory` preserves both state invariants on
its committed state. -/
theorem cancelOrder_tx_preserves (orderId : Nat) (db : DB)
    (hinv : stockInv db) (hped : pedidosPos db) :
    stockInv (cancelOrderAndRestoreInventory orderId db).2.1 ∧
    pedidosPos (cancelOrderAndRestoreInventory orderId db).2.1 := by
  rcases hu : cancelOrderUow orderId db with ⟨r, db1, evs⟩
  cases r with
  | error e =>
    rw [cancelOrderAndRestoreInventory, executeTransaction_allOk_error _ db db1 e evs hu]
    exact ⟨hinv, hped⟩
  | ok a =>
    rw [cancelOrderAndRestoreInventory, executeTransaction_allOk_ok _ db db1 a evs hu]
    exact cancelOrderUow_preserves orderId db hinv hped a db1 evs hu

/-- The batch loop preserves both state invariants. -/
theorem batchGo_preserves (ordersData : List OrderData) :
    ∀ i stop db, stockInv db → pedidosPos db →
      stockInv (batchGo ordersData i stop db).2.2 ∧
      pedidosPos (batchGo ordersData i stop db).2.2 := by
  induction ordersData with
  | nil =>
    intro i stop db hinv hped
    simpa [batchGo] using ⟨hinv, hped⟩
  | cons od rest ih =>
    intro i stop db hinv hped
    have hpres := processCompleteOrder_preserves od db hinv hped
    rcases hpo : processCompleteOrder od db with ⟨r, db1, evs⟩
    rw [hpo] at hpres
    unfold batchGo
    rw [hpo]
    cases r with
    | ok a =>
      have hrec := ih (i + 1) stop db1 hpres.1 hpres.2
      rcases hbg : batchGo rest (i + 1) stop db1 with ⟨rs, es, db2⟩
      rw [hbg] at hrec
      simpa [hbg] using hrec
    | error e =>
      cases hs : stop with
      | true => simpa using ⟨hpres.1, hpres.2⟩
      | false =>
        have hrec := ih (i + 1) false db1 hpres.1 hpres.2
        rcases hbg : batchGo rest (i + 1) false db1 with ⟨rs, es, db2⟩
        rw [hbg] at hrec
        simpa [hbg] using hrec

/-- Claim C2: a decrement whose result would be negative fails before
being applied (first conjunct, producing no state), and every committed
operation of the core — single order, cancellation, batch — maps a
state satisfying the stock invariant (and the store's
`CHECK (cantidad > 0)`) to a state still satisfying it, so no committed
operation leaves a product with negative stock. -/
theorem c2_stock_invariant (db : DB) (hinv : stockInv db) (hped : pedidosPos db) :
    (∀ productId quantity product,
        db.inventario.find? (fun p => p.id == productId) = some product →
        product.stock - quantity < 0 →
        updateStock productId quantity db
          = .error ("Error actualizando stock: " ++ stockInsuficienteMsg product.stock quantity)) ∧
    (∀ od, stockInv (processCompleteOrder od db).2.1) ∧
    (∀ orderId, stockInv (cancelOrderAndRestoreInventory orderId db).2.1) ∧
    (∀ ordersData stop, stockInv (batchProcessOrders ordersData stop db).2) := by
  refine ⟨?_, ?_, ?_, ?_⟩
  · intro productId quantity product hfind hlt
    simp [updateStock, hfind, hlt]
  · intro od
    exact (processCompleteOrder_preserves od db hinv hped).1
  · intro orderId
    exact (cancelOrder_tx_preserves orderId db hinv hped).1
  · intro ordersData stop
    have h := (batchGo_preserves ordersData 0 stop db hinv hped).1
    rcases hbg : batchGo ordersData 0 stop db with ⟨rs, es, db2⟩
    rw [hbg] at h
    simpa [batchProcessOrders, hbg] using h

/-- Witness for C2 at a concrete input: the committed state of Juan's
2-laptop order on the seed store still satisfies the stock invariant. -/
theorem c2_stock_invariant_witness :
    stockInv (processCompleteOrder (OrderData.mk clienteJuan "Laptop Gaming" 2 false) dbInit).2.1 := by
  exact (c2_stock_invariant dbInit
    (by intro p hp; fin_cases hp <;> decide)
    (by intro o ho; simp [dbInit] at ho)).2.1
    (OrderData.mk clienteJuan "Laptop Gaming" 2 false)

/-! ## Claim C6: fault injection -/

/-- Row-writing events (INSERT/UPDATE/DELETE on the three tables). -/
def isRowWrite : Ev → Bool
  | .insertClient _ => true
  | .insertOrder _ => true
  | .stockWrite _ => true
  | .deleteOrder _ => true
  | _ => false

/-- The row writes issued strictly before the injected fault fires. -/
def rowWritesBeforeFault (evs : List Ev) : List Ev :=
  (evs.takeWhile (fun e => !(e == Ev.simFault))).filter isRowWrite

/-- Juan's order with the simulated payment failure requested. -/
def odSim : OrderData :=
  { cliente := clienteJuan, producto := "Laptop Gaming", cantidad := 2, simulateError := true }

/-- Counterexample to C6 as stated: on the fresh store, Juan is a new
customer, so `createClient` inserts his row (step 1) before the
injected fault fires — the trace has a row write strictly before
`simFault`, contradicting "no customer, order, or stock row is ever
written before the injected fault fires". -/
theorem c6_fault_counterexample :
    (processCompleteOrder odSim dbInit).1 = .error simulatedErrorMsg ∧
    rowWritesBeforeFault (processCompleteOrder odSim dbInit).2.2 = [Ev.insertClient 1] ∧
    rowWritesBeforeFault (processCompleteOrder odSim dbInit).2.2 ≠ [] := by
  refine ⟨rfl, by decide, by decide⟩

/-- A successful `createClient` issues either no write (reuse) or
exactly the one customer insert. -/
theorem createClient_events (c : ClienteInput) (db : DB)
    (cl : Cliente) (db1 : DB) (evs : List Ev)
    (h : createClient c db = .ok (cl, db1, evs)) :
    evs = [] ∨ evs = [Ev.insertClient db.nextClienteId] := by
  cases hf : getClientByEmail c.email db with
  | some existing =>
    by_cases hn : existing.nombre ≠ c.nombre
    · simp [createClient, hf, hn] at h
    · simp only [createClient, hf, hn, if_neg, reduceIte, Except.ok.injEq, Prod.mk.injEq] at h
      exact Or.inl h.2.2.symm
  | none =>
    simp only [createClient, hf, Except.ok.injEq, Prod.mk.injEq] at h
    exact Or.inr h.2.2.symm

/-- Claim C6 (amended): with `simulateError` requested, once the
customer is resolved, the product found and the stock check passed, the
synthetic error is raised before persistence — the call fails with the
simulated message, the committed state is the pre-transaction state,
and no order or stock row is ever written in the unit of work; the only
row possibly written before the fault is the customer insert of step 1,
which the rollback removes. -/
theorem c6_fault_injection_amended (orderData : OrderData) (db : DB)
    (hsim : orderData.simulateError = true)
    (cli : Cliente) (db1 : DB) (ev1 : List Ev)
    (hcli : createClient orderData.cliente db = .ok (cli, db1, ev1))
    (prod : Producto) (hprod : getProductByName orderData.producto db1 = some prod)
    (hchk : checkStock prod.id orderData.cantidad db1 = .ok true) :
    processCompleteOrder orderData db
      = (.error simulatedErrorMsg, db,
          [Ev.acquire, Ev.txBegin] ++ (ev1 ++ [Ev.simFault]) ++ [Ev.txRollback, Ev.release]) ∧
    (∀ e ∈ (processCompleteOrder orderData db).2.2, isRowWrite e = true →
      ∃ i, e = Ev.insertClient i) := by
  have huow : processCompleteOrderUow orderData db
      = (.error simulatedErrorMsg, db1, ev1 ++ [Ev.simFault]) := by
    simp [processCompleteOrderUow, hcli, hprod, hchk, hsim]
  have hcall := executeTransaction_allOk_error (processCompleteOrderUow orderData) db db1
    simulatedErrorMsg (ev1 ++ [Ev.simFault]) huow
  constructor
  · rw [processCompleteOrder]
    exact hcall
  · intro e he hw
    rw [processCompleteOrder, hcall] at he
    rcases createClient_events orderData.cliente db cli db1 ev1 hcli with rfl | rfl
    · simp at he
      rcases he with rfl | rfl | rfl | rfl | rfl <;> simp [isRowWrite] at hw
    · simp at he
      rcases he with rfl | rfl | rfl | rfl | rfl | rfl
      · simp [isRowWrite] at hw
      · simp [isRowWrite] at hw
      · exact ⟨db.nextClienteId, rfl⟩
      · simp [isRowWrite] at hw
      · simp [isRowWrite] at hw
      · simp [isRowWrite] at hw

/-- Witness for the amended C6 at a concrete input: Juan's simulated
failure on the seed store rolls back to the initial state with only the
customer insert before the fault. -/
theorem c6_fault_injection_amended_witness :
    processCompleteOrder odSim dbInit
      = (.error simulatedErrorMsg, dbInit,
          [Ev.acquire, Ev.txBegin] ++ ([Ev.insertClient 1] ++ [Ev.simFault])
            ++ [Ev.txRollback, Ev.release]) := by
  exact (c6_fault_injection_amended odSim dbInit rfl clienteJuanRow dbWithJuan
    [Ev.insertClient 1] (by rfl) prodLaptop (by rfl) (by rfl)).1

/-! ## Claim C9: order cancellation -/

/-- The store's referential integrity on `pedidos`: every order's
customer and product rows exist. -/
def refsOK (db : DB) : Prop :=
  ∀ o ∈ db.pedidos, (db.clientes.any (fun c => c.id == o.cliente_id)) = true
    ∧ (db.inventario.any (fun i => i.id == o.producto_id)) = true

/-- Under referential integrity, the JOIN of `getOrderById` returns
exactly the stored order row. -/
theorem getOrderById_of_find (orderId : Nat) (db : DB) (order : Pedido)
    (href : refsOK db)
    (h : db.pedidos.find? (fun p => p.id == orderId) = some order) :
    getOrderById orderId db = some order := by
  have hmem : order ∈ db.pedidos := List.mem_of_find?_eq_some h
  have hj := href order hmem
  unfold getOrderById
  rw [h]
  simp [hj.1, hj.2]

/-- Claim C9: `cancelOrderAndRestoreInventory` fails with the not-found
error when no order with the id exists, fails with the
already-cancelled error when the order's status is `cancelado` (both
leaving the committed state untouched), and otherwise deletes the order
row — deletion is the cancellation mechanism — and adds the order's
quantity back to its product's stock, returning the cancelled order and
the restored product. -/
theorem c9_cancelOrder_contract (orderId : Nat) (db : DB) (href : refsOK db) :
    (db.pedidos.find? (fun p => p.id == orderId) = none →
      (cancelOrderAndRestoreInventory orderId db).1
        = .error ("Pedido con ID " ++ toString orderId ++ " no encontrado") ∧
      (cancelOrderAndRestoreInventory orderId db).2.1 = db) ∧
    (∀ order, db.pedidos.find? (fun p => p.id == orderId) = some order →
      order.estado = "cancelado" →
      (cancelOrderAndRestoreInventory orderId db).1 = .error "El pedido ya está cancelado" ∧
      (cancelOrderAndRestoreInventory orderId db).2.1 = db) ∧
    (∀ order product, db.pedidos.find? (fun p => p.id == orderId) = some order →
      order.estado ≠ "cancelado" →
      db.inventario.find? (fun p => p.id == order.producto_id) = some product →
      ∃ cr, (cancelOrderAndRestoreInventory orderId db).1 = .ok cr ∧
        cr.order = order ∧
        cr.producto = { product with stock := product.stock + order.cantidad, fecha_actualizacion := db.now } ∧
        (cancelOrderAndRestoreInventory orderId db).2.1
          = { db with
              pedidos := db.pedidos.filter (fun p => !(p.id == orderId)),
              inventario := db.inventario.map (fun p =>
                if p.id == order.producto_id then
                  { p with stock := p.stock + order.cantidad, fecha_actualizacion := db.now }
                else p) }) := by
  refine ⟨?_, ?_, ?_⟩
  · intro hf
    have hgo : getOrderById orderId db = none := by
      unfold getOrderById
      rw [hf]
    have huow : cancelOrderUow orderId db
        = (.error ("Pedido con ID " ++ toString orderId ++ " no encontrado"), db, []) := by
      simp [cancelOrderUow, hgo]
    rw [cancelOrderAndRestoreInventory, executeTransaction_allOk_error _ db db _ _ huow]
    exact ⟨rfl, rfl⟩
  · intro order hf hest
    have hgo := getOrderById_of_find orderId db order href hf
    have huow : cancelOrderUow orderId db = (.error "El pedido ya está cancelado", db, []) := by
      simp [cancelOrderUow, hgo, hest]
    rw [cancelOrderAndRestoreInventory, executeTransaction_allOk_error _ db db _ _ huow]
    exact ⟨rfl, rfl⟩
  · intro order product hf hest hpf
    have hgo := getOrderById_of_find orderId db order href hf
    have hbne : (order.estado == "cancelado") = false := by
      simp [hest]
    have huow : cancelOrderUow orderId db
        = (.ok { order := order,
                 producto := { product with stock := product.stock + order.cantidad, fecha_actualizacion := db.now },
                 mensaje := "Pedido " ++ toString orderId ++ " cancelado y stock restaurado" },
            { db with
              pedidos := db.pedidos.filter (fun p => !(p.id == orderId)),
              inventario := db.inventario.map (fun p =>
                if p.id == order.producto_id then
                  { p with stock := p.stock + order.cantidad, fecha_actualizacion := db.now }
                else p) },
            [Ev.deleteOrder orderId] ++ [Ev.stockWrite order.producto_id]) := by
      simp [cancelOrderUow, hgo, hbne, cancelOrder, hf, restoreStock, hpf]
    refine ⟨
      { order := order,
        producto := { product with stock := product.stock + order.cantidad, fecha_actualizacion := db.now },
        mensaje := "Pedido " ++ toString orderId ++ " cancelado y stock restaurado" },
      ?_, rfl, rfl, ?_⟩
    · rw [cancelOrderAndRestoreInventory, executeTransaction_allOk_ok _ db _ _ _ huow]
    · rw [cancelOrderAndRestoreInventory, executeTransaction_allOk_ok _ db _ _ _ huow]

/-- A pending order of 2 laptops by Juan, used as a concrete witness. -/
def pedidoJuan : Pedido :=
  { id := 1, cliente_id := 1, producto_id := 1, cantidad := 2,
    precio_unitario := 1300, total := 2600, estado := "pendiente", fecha_pedido := 0 }

/-- The store holding Juan's pending order. -/
def dbWithPedido : DB :=
  { clientes := [clienteJuanRow], inventario := [{ prodLaptop with stock := 8 }, prodMouse, prodMonitor],
    pedidos := [pedidoJuan], nextClienteId := 2, nextPedidoId := 2, now := 7 }

/-- Witness for C9 at a concrete input: cancelling Juan's pending order
succeeds, returns the cancelled order, and restores the laptop stock. -/
theorem c9_cancelOrder_contract_witness :
    ∃ cr, (cancelOrderAndRestoreInventory 1 dbWithPedido).1 = .ok cr ∧
      cr.order = pedidoJuan ∧
      cr.producto = { { prodLaptop with stock := 8 } with stock := (8 : Int) + 2, fecha_actualizacion := 7 } := by
  obtain ⟨cr, h1, h2, h3, h4⟩ := (c9_cancelOrder_contract 1 dbWithPedido
    (by intro o ho; fin_cases ho; exact ⟨by decide, by decide⟩)).2.2
    pedidoJuan { prodLaptop with stock := 8 } (by decide) (by decide) (by decide)
  exact ⟨cr, h1, h2, h3⟩

/-! ## Claim C10: the order summary -/

instance : IsTotal Pedido (fun a b => b.fecha_pedido ≤ a.fecha_pedido) :=
  ⟨fun a b => le_total b.fecha_pedido a.fecha_pedido⟩

instance : IsTrans Pedido (fun a b => b.fecha_pedido ≤ a.fecha_pedido) :=
  ⟨fun _ _ _ hab hbc => le_trans hbc hab⟩

/-- Claim C10: `getOrderSummary` returns, alongside the statistics and
the low-stock list, at most the first 10 entries of the full order list
sorted newest-first by order date, and every returned entry is a stored
order. -/
theorem c10_getOrderSummary_recent (db : DB) :
    ∃ s, getOrderSummary db
        = (.ok s, db, [Ev.acquire, Ev.txBegin] ++ [] ++ [Ev.txCommit, Ev.release]) ∧
      s.estadisticas = getOrderStatistics db ∧
      s.productos_stock_bajo = getLowStockProducts db ∧
      s.pedidos_recientes = (getAllOrders db).take 10 ∧
      s.pedidos_recientes.length ≤ 10 ∧
      List.Sorted (fun a b => b.fecha_pedido ≤ a.fecha_pedido) s.pedidos_recientes ∧
      ∀ p ∈ s.pedidos_recientes, p ∈ db.pedidos := by
  refine ⟨_, executeTransaction_allOk_ok getOrderSummaryUow db db _ [] rfl,
    rfl, rfl, rfl, ?_, ?_, ?_⟩
  · exact List.length_take_le 10 (getAllOrders db)
  · exact List.Pairwise.sublist (List.take_sublist 10 _) (List.sorted_insertionSort _ _)
  · intro p hp
    have hp2 : p ∈ getAllOrders db := (List.take_sublist 10 _).subset hp
    unfold getAllOrders at hp2
    have hp3 := (List.perm_insertionSort
      (fun a b : Pedido => b.fecha_pedido ≤ a.fecha_pedido) _).mem_iff.mp hp2
    exact List.mem_of_mem_filter hp3

/-! ## Claim C5: normalize and validate-before-write -/

/-- A pair that fails product validation against a state: the product
name does not resolve, or the stock is short. -/
def prBad (pr : ProductoReq) (db : DB) : Prop :=
  getProductByName pr.producto db = none ∨
  ∃ p, getProductByName pr.producto db = some p ∧ p.stock < pr.cantidad

/-- `getProductByName` reads only `inventario`. -/
theorem getProductByName_congr (name : String) (db1 db2 : DB)
    (h : db1.inventario = db2.inventario) :
    getProductByName name db1 = getProductByName name db2 := by
  unfold getProductByName
  rw [h]

/-- `validateProducts` reads only `inventario`. -/
theorem validateProducts_congr (items : List ProductoReq) (db1 db2 : DB)
    (h : db1.inventario = db2.inventario) :
    validateProducts items db1 = validateProducts items db2 := by
  induction items with
  | nil => rfl
  | cons pr rest ih =>
    have hg : getProductByName pr.producto db1 = getProductByName pr.producto db2 :=
      getProductByName_congr pr.producto db1 db2 h
    simp only [validateProducts, hg, ih]

/-- A list containing one invalid pair never validates. -/
theorem validateProducts_error_of_bad (items : List ProductoReq) (db : DB)
    (hbad : ∃ pr ∈ items, prBad pr db) :
    ∃ e, validateProducts items db = .error e := by
  induction items with
  | nil => simp at hbad
  | cons pr rest ih =>
    obtain ⟨pr0, hmem, hb⟩ := hbad
    rcases List.mem_cons.mp hmem with rfl | hmem2
    · rcases hb with hnone | ⟨p, hp, hlt⟩
      · exact ⟨productoNotFoundMsg pr0.producto, by simp [validateProducts, hnone]⟩
      · exact ⟨serviceStockMsg pr0.producto p.stock pr0.cantidad,
          by simp [validateProducts, hp, hlt]⟩
    · cases hg : getProductByName pr.producto db with
      | none => exact ⟨productoNotFoundMsg pr.producto, by simp [validateProducts, hg]⟩
      | some p =>
        by_cases hlt : p.stock < pr.cantidad
        · exact ⟨serviceStockMsg pr.producto p.stock pr.cantidad,
            by simp [validateProducts, hg, hlt]⟩
        · obtain ⟨e, he⟩ := ih ⟨pr0, hmem2, hb⟩
          exact ⟨e, by simp [validateProducts, hg, hlt, he]⟩

/-- Claim C5 (against the spec-modelled multi-product orchestrator):
a request carrying neither a single pair nor a list is rejected with
the ValidationError before any transaction is opened; and for an
accepted request containing any invalid pair — unresolvable name or
short stock — the call fails, the committed state is exactly the input
state (zero orders created, zero stock changed, for all listed
products), and the unit of work never issues an order insert or a stock
write (the only possible row write is the step-2 customer insert). -/
theorem c5_validation_before_writes (od : MultiOrderData) (db : DB) :
    (od.single = none → od.productos = none →
      processCompleteOrderMulti od db = (.error validationErrorMsg, db, [])) ∧
    (∀ items, normalizeProducts od = .ok items →
      (∃ pr ∈ items, prBad pr db) →
      (∃ e, (processCompleteOrderMulti od db).1 = .error e) ∧
      (processCompleteOrderMulti od db).2.1 = db ∧
      (∀ ev ∈ (processCompleteOrderMulti od db).2.2, isRowWrite ev = true →
        ∃ i, ev = Ev.insertClient i)) := by
  constructor
  · intro h1 h2
    simp [processCompleteOrderMulti, normalizeProducts, h1, h2]
  · intro items hnorm hbad
    have hcall : processCompleteOrderMulti od db
        = executeTransaction TxEnv.allOk (processMultiUow od items) db := by
      rw [processCompleteOrderMulti, hnorm]
    cases h1 : createClient od.cliente db with
    | error e =>
      have huow : processMultiUow od items db = (.error e, db, []) := by
        simp [processMultiUow, h1]
      rw [hcall, executeTransaction_allOk_error _ db db e [] huow]
      refine ⟨⟨e, rfl⟩, rfl, ?_⟩
      intro ev hev hw
      simp at hev
      rcases hev with rfl | rfl | rfl | rfl <;> simp [isRowWrite] at hw
    | ok t =>
      obtain ⟨cli, db1, ev1⟩ := t
      have hA := createClient_preserves od.cliente db cli db1 ev1 h1
      have hval : validateProducts items db1 = validateProducts items db :=
        validateProducts_congr items db1 db hA.1
      obtain ⟨e, he⟩ := validateProducts_error_of_bad items db hbad
      have huow : processMultiUow od items db = (.error e, db1, ev1) := by
        simp [processMultiUow, h1, hval, he]
      rw [hcall, executeTransaction_allOk_error _ db db1 e ev1 huow]
      refine ⟨⟨e, rfl⟩, rfl, ?_⟩
      intro ev hev hw
      rcases createClient_events od.cliente db cli db1 ev1 h1 with rfl | rfl
      · simp at hev
        rcases hev with rfl | rfl | rfl | rfl <;> simp [isRowWrite] at hw
      · simp at hev
        rcases hev with rfl | rfl | rfl | rfl | rfl
        · simp [isRowWrite] at hw
        · simp [isRowWrite] at hw
        · exact ⟨db.nextClienteId, rfl⟩
        · simp [isRowWrite] at hw
        · simp [isRowWrite] at hw

/-- Scenario F: a three-product order where the second product is short
(100 monitors against a stock of 8). -/
def odMultiBad : MultiOrderData :=
  { cliente := clienteJuan, single := none,
    productos := some [⟨"Mouse Inalámbrico", 2⟩, ⟨"Monitor 4K", 100⟩, ⟨"Laptop Gaming", 1⟩],
    simulateError := false }

/-- Witness for C5 at a concrete input: the three-product order with
one short product fails and commits nothing on the seed store. -/
theorem c5_validation_before_writes_witness :
    (∃ e, (processCompleteOrderMulti odMultiBad dbInit).1 = .error e) ∧
    (processCompleteOrderMulti odMultiBad dbInit).2.1 = dbInit := by
  have h := (c5_validation_before_writes odMultiBad dbInit).2
    [⟨"Mouse Inalámbrico", 2⟩, ⟨"Monitor 4K", 100⟩, ⟨"Laptop Gaming", 1⟩] rfl
    ⟨⟨"Monitor 4K", 100⟩, by decide, Or.inr ⟨prodMonitor, rfl, by decide⟩⟩
  exact ⟨h.1, h.2.1⟩

/-! ## Claim C8: batch processing -/

/-- Shape of the stop-on-first-error loop: the successes are a prefix
with consecutive indices starting at `i`, and either no error was met
(every request processed) or exactly one error ends the run and carries
the next index. -/
theorem batchGo_stop_spec (ordersData : List OrderData) :
    ∀ i db rs es db2, batchGo ordersData i true db = (rs, es, db2) →
      rs.map (fun r => r.index) = List.range' i rs.length ∧
      (es = [] ∧ rs.length = ordersData.length ∨
        ∃ e, es = [⟨i + rs.length, e⟩] ∧ rs.length < ordersData.length) := by
  induction ordersData with
  | nil =>
    intro i db rs es db2 h
    simp only [batchGo, Prod.mk.injEq] at h
    obtain ⟨h1, h2, -⟩ := h
    subst h1 h2
    exact ⟨rfl, Or.inl ⟨rfl, rfl⟩⟩
  | cons od rest ih =>
    intro i db rs es db2 h
    unfold batchGo at h
    rcases hpo : processCompleteOrder od db with ⟨r, db1, evs⟩
    rw [hpo] at h
    cases r with
    | ok a =>
      dsimp only at h
      rcases hbg : batchGo rest (i + 1) true db1 with ⟨rs2, es2, db3⟩
      rw [hbg] at h
      simp only [Prod.mk.injEq] at h
      obtain ⟨h1, h2, -⟩ := h
      subst h1 h2
      obtain ⟨ihmap, ihcase⟩ := ih (i + 1) db1 rs2 es2 db3 hbg
      constructor
      · have hr : List.range' i (rs2.length + 1) = i :: List.range' (i + 1) rs2.length := rfl
        rw [List.length_cons, hr, List.map_cons, ihmap]
      · rcases ihcase with ⟨he, hlen⟩ | ⟨e, he, hlt⟩
        · exact Or.inl ⟨he, by simp [hlen]⟩
        · refine Or.inr ⟨e, ?_, by simpa using hlt⟩
          rw [he, List.length_cons]
          have : i + 1 + rs2.length = i + (rs2.length + 1) := by omega
          rw [this]
    | error e0 =>
      dsimp only at h
      simp only [if_true, reduceIte, Prod.mk.injEq] at h
      obtain ⟨h1, h2, -⟩ := h
      subst h1 h2
      refine ⟨rfl, Or.inr ⟨e0, by simp, by simp⟩⟩

/-- Shape of the continue-on-error loop: every request is attempted and
every index in range appears in exactly the successes or the errors. -/
theorem batchGo_cont_spec (ordersData : List OrderData) :
    ∀ i db rs es db2, batchGo ordersData i false db = (rs, es, db2) →
      rs.length + es.length = ordersData.length ∧
      ∀ j, i ≤ j → j < i + ordersData.length →
        ((∃ r ∈ rs, r.index = j) ∨ (∃ er ∈ es, er.index = j)) := by
  induction ordersData with
  | nil =>
    intro i db rs es db2 h
    simp only [batchGo, Prod.mk.injEq] at h
    obtain ⟨h1, h2, -⟩ := h
    subst h1 h2
    exact ⟨rfl, by intro j hj1 hj2; simp at hj2; omega⟩
  | cons od rest ih =>
    intro i db rs es db2 h
    unfold batchGo at h
    rcases hpo : processCompleteOrder od db with ⟨r, db1, evs⟩
    rw [hpo] at h
    cases r with
    | ok a =>
      dsimp only at h
      rcases hbg : batchGo rest (i + 1) false db1 with ⟨rs2, es2, db3⟩
      rw [hbg] at h
      simp only [Prod.mk.injEq] at h
      obtain ⟨h1, h2, -⟩ := h
      subst h1 h2
      obtain ⟨ihlen, ihcov⟩ := ih (i + 1) db1 rs2 es2 db3 hbg
      refine ⟨by simp [← ihlen]; omega, ?_⟩
      intro j hj1 hj2
      by_cases hj : j = i
      · exact Or.inl ⟨⟨i, a⟩, List.mem_cons_self _ _, hj.symm⟩
      · rcases ihcov j (by omega) (by simp at hj2; omega) with ⟨r2, hr2, hr2i⟩ | her
        · exact Or.inl ⟨r2, List.mem_cons_of_mem _ hr2, hr2i⟩
        · exact Or.inr her
    | error e0 =>
      dsimp only at h
      simp only [Bool.false_eq_true, if_false, reduceIte] at h
      rcases hbg : batchGo rest (i + 1) false db1 with ⟨rs2, es2, db3⟩
      rw [hbg] at h
      simp only [Prod.mk.injEq] at h
      obtain ⟨h1, h2, -⟩ := h
      subst h1 h2
      obtain ⟨ihlen, ihcov⟩ := ih (i + 1) db1 rs2 es2 db3 hbg
      refine ⟨by simp [← ihlen]; omega, ?_⟩
      intro j hj1 hj2
      by_cases hj : j = i
      · exact Or.inr ⟨⟨i, e0⟩, List.mem_cons_self _ _, hj.symm⟩
      · rcases ihcov j (by omega) (by simp at hj2; omega) with hr | ⟨er2, her2, her2i⟩
        · exact Or.inl hr
        · exact Or.inr ⟨er2, List.mem_cons_of_mem _ her2, her2i⟩

/-- Claim C8: each batch entry runs in its own transaction against the
state committed so far, and a failing entry's transaction leaves that
state untouched, so it never rolls back earlier entries' commits; the
summary reports `total`, `successful` and `failed` consistently; with
`stopOnError` the loop ends at the first failure (at most one error,
the successes being exactly the indices before it) and later requests
are not attempted; without it every request is attempted and every
index is collected as a success or an error. -/
theorem c8_batch_contract (ordersData : List OrderData) (stopOnError : Bool) (db : DB) :
    ((batchProcessOrders ordersData stopOnError db).1.total = ordersData.length ∧
      (batchProcessOrders ordersData stopOnError db).1.successful
        = (batchProcessOrders ordersData stopOnError db).1.results.length ∧
      (batchProcessOrders ordersData stopOnError db).1.failed
        = (batchProcessOrders ordersData stopOnError db).1.errors.length) ∧
    (∀ od d e, (processCompleteOrder od d).1 = .error e →
      (processCompleteOrder od d).2.1 = d) ∧
    (stopOnError = true →
      (batchProcessOrders ordersData true db).1.errors.length ≤ 1 ∧
      (batchProcessOrders ordersData true db).1.results.map (fun r => r.index)
        = List.range' 0 (batchProcessOrders ordersData true db).1.results.length ∧
      ((batchProcessOrders ordersData true db).1.errors = [] →
        (batchProcessOrders ordersData true db).1.results.length = ordersData.length) ∧
      (∀ er, (batchProcessOrders ordersData true db).1.errors = [er] →
        er.index = (batchProcessOrders ordersData true db).1.results.length ∧
        (batchProcessOrders ordersData true db).1.results.length < ordersData.length)) ∧
    (stopOnError = false →
      (batchProcessOrders ordersData false db).1.results.length
          + (batchProcessOrders ordersData false db).1.errors.length = ordersData.length ∧
      ∀ j, j < ordersData.length →
        ((∃ r ∈ (batchProcessOrders ordersData false db).1.results, r.index = j) ∨
          (∃ er ∈ (batchProcessOrders ordersData false db).1.errors, er.index = j))) := by
  refine ⟨?_, ?_, ?_, ?_⟩
  · rcases hbg : batchGo ordersData 0 stopOnError db with ⟨rs, es, db2⟩
    simp [batchProcessOrders, hbg]
  · intro od d e h
    rcases huow : processCompleteOrderUow od d with ⟨r, d1, evs⟩
    cases r with
    | ok a =>
      rw [processCompleteOrder, executeTransaction_allOk_ok _ d d1 a evs huow] at h
      simp at h
    | error e0 =>
      rw [processCompleteOrder, executeTransaction_allOk_error _ d d1 e0 evs huow]
  · intro hs
    subst hs
    rcases hbg : batchGo ordersData 0 true db with ⟨rs, es, db2⟩
    obtain ⟨hmap, hcase⟩ := batchGo_stop_spec ordersData 0 db rs es db2 hbg
    simp only [batchProcessOrders, hbg]
    refine ⟨?_, hmap, ?_, ?_⟩
    · rcases hcase with ⟨he, -⟩ | ⟨e, he, -⟩ <;> simp [he]
    · intro he
      rcases hcase with ⟨-, hlen⟩ | ⟨e, he2, -⟩
      · exact hlen
      · rw [he] at he2
        simp at he2
    · intro er her
      rcases hcase with ⟨he, -⟩ | ⟨e, he2, hlt⟩
      · rw [he] at her
        simp at her
      · rw [her] at he2
        simp only [List.cons.injEq, and_true] at he2
        rw [he2]
        exact ⟨by simp, hlt⟩
  · intro hs
    subst hs
    rcases hbg : batchGo ordersData 0 false db with ⟨rs, es, db2⟩
    obtain ⟨hlen, hcov⟩ := batchGo_cont_spec ordersData 0 db rs es db2 hbg
    simp only [batchProcessOrders, hbg]
    refine ⟨hlen, ?_⟩
    intro j hj
    exact hcov j (by omega) (by omega)

/-- Witness for C8 at a concrete input: a two-order batch — Juan's
laptop order followed by the simulated failure — processed with
`stopOnError = false` attempts both and collects both outcomes. -/
theorem c8_batch_contract_witness :
    (batchProcessOrders [OrderData.mk clienteJuan "Laptop Gaming" 2 false, odSim] false dbInit).1.results.length
        + (batchProcessOrders [OrderData.mk clienteJuan "Laptop Gaming" 2 false, odSim] false dbInit).1.errors.length
      = 2 := by
  exact ((c8_batch_contract [OrderData.mk clienteJuan "Laptop Gaming" 2 false, odSim]
    false dbInit).2.2.2 rfl).1
